import Mathlib

/-!
Verification development for the DevOps & SRE journey dashboard
(`devops_sre_dashboard.py`).

The persistence routine (`load_progress` / `save_progress`), the progress
aggregation (`calculate_section_progress`, the per-section recomputation and
the overall mean) and the catalogue of task keys are embedded below as
executable Lean definitions, translated directly from the Python source.
External effects are made explicit:

* the local progress file is a `FileState` (missing, unreadable, malformed
  JSON, or well-formed stored JSON);
* a remote fetch is a `FetchResult` (network error, HTTP status error,
  body parse error, or a fetched JSON value);
* user-visible Streamlit notices (`st.warning` / `st.info` / `st.error` /
  `st.success`) are collected in a list;
* a Python exception escaping to the caller is an `Except.error`.

JSON values are modelled by the inductive `Json`; Python truthiness of a
JSON value (used by `progress.get(key, False)` checks) is `Json.truthy`.
Arithmetic on progress percentages is modelled over `ℚ`.
-/

namespace Dashboard

/-- A JSON value, as produced by `json.load` / `resp.json()`. -/
inductive Json where
  | null : Json
  | bool (b : Bool) : Json
  | num (q : ℚ) : Json
  | str (s : String) : Json
  | arr (elems : List Json) : Json
  | obj (fields : List (String × Json)) : Json

/-- Python truthiness of a JSON value (used by `if progress.get(k, False):`). -/
def Json.truthy : Json → Bool
  | .null => false
  | .bool b => b
  | .num q => decide (q ≠ 0)
  | .str s => decide (s ≠ "")
  | .arr [] => false
  | .arr (_ :: _) => true
  | .obj [] => false
  | .obj (_ :: _) => true

/-- The persisted progress mapping: a Python dict from string keys to JSON
values, modelled as an association list whose first binding for a key is the
live one (Python dicts hold at most one binding per key). -/
abbrev Document := List (String × Json)

/-- First-binding lookup in an association list (Python `d.get(key)`). -/
def lookupStr {α : Type} : List (String × α) → String → Option α
  | [], _ => none
  | (k, v) :: rest, key => if k = key then some v else lookupStr rest key

/-- `progress.get(key, False)` followed by a truthiness test: absent keys
default to `False`, which is falsy. -/
def truthyGet (progress : Document) (key : String) : Bool :=
  match lookupStr progress key with
  | some v => v.truthy
  | none => false

/-- Python dict assignment `d[key] = v`: replaces the binding in place when
the key is present (keeping its position), appends it otherwise. -/
def assocSet : Document → String → Json → Document
  | [], key, v => [(key, v)]
  | (k, old) :: rest, key, v =>
      if k = key then (key, v) :: rest else (k, old) :: assocSet rest key v

/-- A user-visible Streamlit notice emitted by the persistence layer. -/
inductive Notice where
  | warn (msg : String)
  | info (msg : String)
  | fail (msg : String)
  | done (msg : String)
  deriving DecidableEq

/-- The state of the local progress file `dashboard_progress.json`. -/
inductive FileState where
  | missing
  | unreadable (errMsg : String)
  | malformed
  | stored (j : Json)

/-- The outcome of a remote fetch (`requests.get` plus `raise_for_status`
plus `resp.json()`, or the boto3 `get_object` path): either one of the three
failure modes, each raising an exception with a message, or a fetched JSON
value. -/
inductive FetchResult where
  | netError (msg : String)
  | httpError (msg : String)
  | parseError (msg : String)
  | success (j : Json)

def FetchResult.isFailure : FetchResult → Bool
  | .success _ => false
  | _ => true

def FetchResult.errText : FetchResult → String
  | .netError m => m
  | .httpError m => m
  | .parseError m => m
  | .success _ => ""

/-- A Python exception escaping `load_progress` to its caller: an `OSError`
other than `FileNotFoundError` (for example `PermissionError`), which the
local branch `except (json.JSONDecodeError, FileNotFoundError)` does not
catch. -/
inductive PyErr where
  | osError (msg : String)
  deriving DecidableEq

/-- Python `str.startswith`, modelled on the character sequence of the
string (Lean `String.startsWith` itself is not kernel-reducible). -/
def startswith (s pre : String) : Bool :=
  pre.data.isPrefixOf s.data

/-- `is_http_url` from the source. -/
def is_http_url (url : String) : Bool :=
  startswith url "http://" || startswith url "https://"

/-- `is_s3_url` from the source. -/
def is_s3_url (url : String) : Bool :=
  startswith url "s3://"

/-- The local fallback read used inside the remote branches of
`load_progress`: `if os.path.exists: try: json.load except Exception:
return \x7b\x7d` — every local failure, including an unreadable file, yields the
empty document. -/
def local_fallback_read (file : FileState) : Json :=
  match file with
  | .stored j => j
  | _ => Json.obj []

/-- The warning text of the HTTP remote branch of `load_progress`. -/
def remote_warn_msg (loc : String) (r : FetchResult) : String :=
  "Could not load remote JSON at " ++ loc ++ ": " ++ r.errText ++
    ". Falling back to local file."

/-- The warning text of the s3 remote branch of `load_progress`. -/
def remote_s3_warn_msg (loc : String) (r : FetchResult) : String :=
  "Could not load remote S3 JSON " ++ loc ++ ": " ++ r.errText ++
    ". Falling back to local file."

/-- `load_progress` from the source.  `s3_location` is the configured
`S3_LOCATION`; `file` is the state of the local `DATA_FILE`; `httpFetch`
and `s3Fetch` are the outcomes the HTTP and s3 backends would produce if
consulted.  Returns either a raised exception or the loaded JSON value
together with the notices emitted. -/
def load_progress (s3_location : String) (file : FileState)
    (httpFetch : FetchResult) (s3Fetch : FetchResult) :
    Except PyErr (Json × List Notice) :=
  if s3_location = "" then
    match file with
    | .missing => .ok (Json.obj [], [])
    | .stored j => .ok (j, [])
    | .malformed => .ok (Json.obj [], [])
    | .unreadable m => .error (.osError m)
  else if is_http_url s3_location then
    match httpFetch with
    | .success j => .ok (j, [])
    | r => .ok (local_fallback_read file,
                [Notice.warn (remote_warn_msg s3_location r)])
  else if is_s3_url s3_location then
    match s3Fetch with
    | .success j => .ok (j, [])
    | r => .ok (local_fallback_read file,
                [Notice.warn (remote_s3_warn_msg s3_location r)])
  else
    .ok (Json.obj [], [])

/-- The warning text of a failed local backup write in `save_progress`. -/
def local_backup_warn (e : String) : String :=
  "Could not write local backup: " ++ e

/-- The informational notice of the HTTP branch of `save_progress`. -/
def http_readonly_info : String :=
  "Remote location is HTTP(S) (public). Local copy saved. To enable remote uploads, set DASHBOARD_S3_LOCATION to an s3:// URL and provide AWS credentials."

/-- `save_progress` from the source.  `localWriteErr` is `none` when the
local backup write succeeds and `some e` when it raises with message `e`
(caught and reported); `s3PutErr` likewise for the boto3 `put_object` call.
Returns the local file state after the call, the notices emitted in order,
and the JSON document uploaded to the remote (`none` when no network write
is performed). -/
def save_progress (data : Document) (s3_location : String) (file : FileState)
    (localWriteErr : Option String) (s3PutErr : Option String) :
    FileState × List Notice × Option Json :=
  let fileAfter : FileState :=
    match localWriteErr with
    | none => FileState.stored (Json.obj data)
    | some _ => file
  let backupNotices : List Notice :=
    match localWriteErr with
    | none => []
    | some e => [Notice.warn (local_backup_warn e)]
  if s3_location = "" then
    (fileAfter, backupNotices, none)
  else if is_http_url s3_location then
    (fileAfter, backupNotices ++ [Notice.info http_readonly_info], none)
  else if is_s3_url s3_location then
    match s3PutErr with
    | none => (fileAfter, backupNotices ++ [Notice.done "Progress saved to S3"],
               some (Json.obj data))
    | some e => (fileAfter,
                 backupNotices ++ [Notice.fail ("Failed to save to S3: " ++ e)],
                 none)
  else
    (fileAfter, backupNotices, none)

/-- The reset confirmation block: `os.remove(DATA_FILE)` when it exists, so
the local file is missing afterwards in either case. -/
def reset_progress_file (_file : FileState) : FileState :=
  FileState.missing

/-- `st.session_state.clear()`: the in-memory document of the session is
discarded. -/
def reset_session (_progress : Option Document) : Option Document :=
  none

/-- `f"{subsection_key}_{task}"`: the namespaced flat key of a task. -/
def fullKey (subsection_key task : String) : String :=
  subsection_key ++ "_" ++ task

/-- The flat keys of one subsection of `sections_data`. -/
def subsection_full_keys (subsection_key : String) (tasks : List String) : List String :=
  tasks.map (fun task => fullKey subsection_key task)

/-- The flat keys of a whole section of `sections_data`, in the order the
nested loop of `calculate_section_progress` visits them. -/
def section_task_keys : List (String × List String) → List String
  | [] => []
  | (k, tasks) :: rest => subsection_full_keys k tasks ++ section_task_keys rest

/-- How many keys of `keys` the document marks completed (the
`if st.session_state.progress.get(full_key, False): total_completed += 1`
loop of `calculate_section_progress`). -/
def countCompleted (progress : Document) (keys : List String) : Nat :=
  (keys.filter (fun k => truthyGet progress k)).length

/-- The `foundations` entry of `sections_data`. -/
def foundations_data : List (String × List String) :=
  [("linux", ["basic_commands", "file_operations", "permissions", "text_processing", "process_mgmt", "system_info", "package_mgmt", "user_mgmt", "cron_jobs", "log_analysis"]),
   ("scripting", ["bash_basics", "bash_advanced", "python_basics", "python_modules", "automation_scripts", "error_handling", "script_deployment", "config_management"]),
   ("docker", ["docker_concepts", "dockerfile", "docker_commands", "volumes_networks", "docker_compose", "registry_mgmt", "security", "optimization"]),
   ("yaml_json", ["yaml_syntax", "json_syntax", "data_validation", "templating", "config_files", "api_responses"]),
   ("networking", ["osi_model", "ip_subnetting", "dns_concepts", "load_balancing", "firewalls", "network_tools", "ssl_tls", "vpn_concepts"]),
   ("sdlc", ["sdlc_phases", "agile_scrum", "waterfall", "devops_integration", "quality_assurance", "deployment_strategies"])]

/-- The `cicd` entry of `sections_data`. -/
def cicd_data : List (String × List String) :=
  [("git", ["git_basics", "branching", "git_workflow", "conflict_resolution", "git_hooks", "github_features", "code_review", "git_advanced"]),
   ("jenkins", ["jenkins_setup", "pipeline_syntax", "build_jobs", "pipeline_stages", "jenkins_plugins", "build_triggers", "artifacts", "jenkins_security"]),
   ("github_actions", ["workflow_syntax", "actions_marketplace", "ci_workflows", "cd_workflows", "secrets_management", "matrix_builds", "custom_actions", "workflow_optimization"]),
   ("testing", ["unit_testing", "integration_testing", "e2e_testing", "test_automation", "code_coverage", "performance_testing", "security_testing", "test_reporting"]),
   ("deployment", ["deployment_strategies", "rollback_mechanisms", "env_management", "config_management", "release_automation", "deployment_tools", "database_migrations", "monitoring_deployment"])]

/-- The `cloud` entry of `sections_data`. -/
def cloud_data : List (String × List String) :=
  [("aws", ["aws_basics", "ec2", "s3", "iam", "vpc", "rds", "cloudwatch", "lambda", "elb", "aws_cli"]),
   ("terraform", ["terraform_basics", "terraform_state", "terraform_modules", "terraform_variables", "terraform_provisioners", "terraform_workspaces", "terraform_import", "terraform_best_practices"]),
   ("k8s", ["k8s_architecture", "pods", "deployments", "services", "configmaps_secrets", "ingress", "volumes", "rbac", "kubectl", "troubleshooting"]),
   ("helm", ["helm_basics", "helm_templates", "helm_hooks", "kustomize_basics", "kustomize_patches", "package_management", "helm_security"])]

/-- The `monitoring` entry of `sections_data`. -/
def monitoring_data : List (String × List String) :=
  [("prometheus", ["prometheus_basics", "metrics_collection", "promql", "alerting_rules", "grafana_dashboards", "grafana_alerts", "service_discovery", "monitoring_best_practices"]),
   ("elk", ["elasticsearch", "logstash", "kibana", "filebeat", "fluentd", "log_parsing", "index_management", "security_logging"]),
   ("cloudwatch", ["cloudwatch_metrics", "cloudwatch_logs", "cloudwatch_alarms", "cloudwatch_dashboards", "datadog_basics", "datadog_dashboards", "datadog_alerts", "apm_tracing"]),
   ("incident", ["incident_response", "on_call_practices", "escalation_procedures", "incident_tools", "post_incident", "runbooks", "communication", "metrics_tracking"])]

/-- The `sre` entry of `sections_data`. -/
def sre_data : List (String × List String) :=
  [("slo", ["sli_definition", "slo_setting", "sla_management", "error_budget", "slo_monitoring", "slo_reporting"]),
   ("budget", ["error_budget_concept", "toil_identification", "automation_prioritization", "capacity_planning", "reliability_engineering", "toil_reduction"]),
   ("rca", ["incident_classification", "incident_response_process", "rca_methodology", "blameless_postmortem", "action_items", "incident_prevention", "communication_protocols", "learning_culture"]),
   ("automation", ["infrastructure_automation", "deployment_automation", "testing_automation", "monitoring_automation", "self_healing", "auto_scaling", "pipeline_optimization", "automation_testing"]),
   ("chaos", ["chaos_principles", "chaos_tools", "failure_injection", "blast_radius", "chaos_experiments", "resilience_testing", "gamedays", "chaos_automation"])]

/-- `sections_data` from `calculate_section_progress`: the static catalogue
of sections, subsections and task keys. -/
def sections_data : List (String × List (String × List String)) :=
  [("foundations", foundations_data), ("cicd", cicd_data), ("cloud", cloud_data),
   ("monitoring", monitoring_data), ("sre", sre_data)]

/-- All namespaced task keys of the catalogue, section by section. -/
def catalogue_full_keys : List String :=
  section_task_keys foundations_data ++ section_task_keys cicd_data ++
    section_task_keys cloud_data ++ section_task_keys monitoring_data ++
    section_task_keys sre_data

/-- The per-section body of `calculate_section_progress` from the source:
`(total_completed / total_tasks * 100) if total_tasks > 0 else 0`. -/
def calculate_section_progress_for (progress : Document)
    (subsections : List (String × List String)) : ℚ :=
  let total_completed := countCompleted progress (section_task_keys subsections)
  let total_tasks := (section_task_keys subsections).length
  if 0 < total_tasks then (total_completed : ℚ) / (total_tasks : ℚ) * 100 else 0

/-- `section_progress` (the dict of percentages returned by
`calculate_section_progress`). -/
def progress_data (progress : Document) : List (String × ℚ) :=
  sections_data.map (fun p => (p.1, calculate_section_progress_for progress p.2))

/-- `progress_data.get(key, 0)`. -/
def getQ (l : List (String × ℚ)) (key : String) : ℚ :=
  match lookupStr l key with
  | some v => v
  | none => 0

/-- `overall` from the source:
`(f_progress + cicd_progress + cloud_progress + mon_progress + sre_progress) / 5`
with each operand drawn from `progress_data`. -/
def overall (progress : Document) : ℚ :=
  (getQ (progress_data progress) "foundations" +
   getQ (progress_data progress) "cicd" +
   getQ (progress_data progress) "cloud" +
   getQ (progress_data progress) "monitoring" +
   getQ (progress_data progress) "sre") / 5

/-- `overall / 100`, the [0,1] ratio passed to `st.progress`. -/
def overallFraction (progress : Document) : ℚ :=
  overall progress / 100

/-- `section_progress` the helper function (line 190 of the source):
`sum(items.values()) / len(items) * 100 if items else 0`, where the values
are booleans so their sum is the count of `True`. -/
def section_progress (items : List (String × Bool)) : ℚ :=
  match items with
  | [] => 0
  | _ :: _ => ((items.filter (fun p => p.2)).length : ℚ) / (items.length : ℚ) * 100

/-- `section_progress items / 100`, the [0,1] ratio a subsection progress
bar receives (`st.progress(progress / 100)`). -/
def subsectionFraction (items : List (String × Bool)) : ℚ :=
  section_progress items / 100

/-- `persistent_checkbox` from the source: `st.checkbox` returns the widget
state (its default being `progress.get(key, False)` truthiness when the user
has not touched it), and the function writes that boolean back into the
document (`st.session_state.progress[key] = value`) and returns it. -/
def persistent_checkbox (progress : Document) (key : String)
    (widgetValue : Bool) : Bool × Document :=
  (widgetValue, assocSet progress key (Json.bool widgetValue))

/-- The subtask value dict built by `create_subtask_section` on a render in
which no checkbox is being toggled: each subtask maps to the stored
truthiness of its namespaced key. -/
def create_subtask_values (progress : Document)
    (subtasks : List (String × String)) (section_key : String) :
    List (String × Bool) :=
  subtasks.map (fun p => (p.1, truthyGet progress (fullKey section_key p.1)))

/-- `linux_subtasks` from the source. -/
def linux_subtasks : List (String × String) :=
  [("basic_commands", "Basic Commands (ls, cd, pwd, mkdir, rmdir)"),
   ("file_operations", "File Operations (cp, mv, rm, find, grep)"),
   ("permissions", "File Permissions & Ownership (chmod, chown, chgrp)"),
   ("text_processing", "Text Processing (cat, head, tail, awk, sed)"),
   ("process_mgmt", "Process Management (ps, top, kill, jobs, nohup)"),
   ("system_info", "System Information (df, du, free, uname, lscpu)"),
   ("package_mgmt", "Package Management (apt, yum, dpkg, rpm)"),
   ("user_mgmt", "User & Group Management (useradd, usermod, su, sudo)"),
   ("cron_jobs", "Cron Jobs & Task Scheduling"),
   ("log_analysis", "Log Files & System Monitoring (/var/log, journalctl)")]

/-- `scripting_subtasks` from the source. -/
def scripting_subtasks : List (String × String) :=
  [("bash_basics", "Bash Scripting Basics (variables, loops, conditions)"),
   ("bash_advanced", "Advanced Bash (functions, arrays, error handling)"),
   ("python_basics", "Python Basics (syntax, data types, control flow)"),
   ("python_modules", "Python Modules (os, sys, subprocess, requests)"),
   ("automation_scripts", "Automation Scripts (file processing, API calls)"),
   ("error_handling", "Error Handling & Logging"),
   ("script_deployment", "Script Deployment & Execution"),
   ("config_management", "Configuration Management with Scripts")]

/-- `docker_subtasks` from the source. -/
def docker_subtasks : List (String × String) :=
  [("docker_concepts", "Docker Concepts (images, containers, registries)"),
   ("dockerfile", "Dockerfile Creation & Best Practices"),
   ("docker_commands", "Docker Commands (run, build, push, pull)"),
   ("volumes_networks", "Docker Volumes & Networks"),
   ("docker_compose", "Docker Compose (multi-container apps)"),
   ("registry_mgmt", "Registry Management (Docker Hub, ECR)"),
   ("security", "Container Security Best Practices"),
   ("optimization", "Image Optimization & Layer Management")]

/-- `yaml_json_subtasks` from the source. -/
def yaml_json_subtasks : List (String × String) :=
  [("yaml_syntax", "YAML Syntax & Structure"),
   ("json_syntax", "JSON Syntax & Structure"),
   ("data_validation", "Data Validation & Schema"),
   ("templating", "YAML/JSON Templating (Jinja2, Go templates)"),
   ("config_files", "Configuration Files Management"),
   ("api_responses", "API Request/Response Handling")]

/-- `networking_subtasks` from the source. -/
def networking_subtasks : List (String × String) :=
  [("osi_model", "OSI Model & TCP/IP Stack"),
   ("ip_subnetting", "IP Addressing & Subnetting"),
   ("dns_concepts", "DNS & Domain Resolution"),
   ("load_balancing", "Load Balancing Concepts"),
   ("firewalls", "Firewalls & Security Groups"),
   ("network_tools", "Network Tools (ping, telnet, netstat, ss)"),
   ("ssl_tls", "SSL/TLS & Certificate Management"),
   ("vpn_concepts", "VPN & Network Security")]

/-- `sdlc_subtasks` from the source. -/
def sdlc_subtasks : List (String × String) :=
  [("sdlc_phases", "SDLC Phases (Planning, Analysis, Design, Implementation)"),
   ("agile_scrum", "Agile & Scrum Methodologies"),
   ("waterfall", "Waterfall Model Understanding"),
   ("devops_integration", "DevOps Integration in SDLC"),
   ("quality_assurance", "Quality Assurance & Testing"),
   ("deployment_strategies", "Deployment Strategies & Release Management")]

/-- `all_foundations_progress` (line 443 of the source): the six subtask
value dicts of the foundations section. -/
def all_foundations_progress (progress : Document) : List (List (String × Bool)) :=
  [create_subtask_values progress linux_subtasks "linux",
   create_subtask_values progress scripting_subtasks "scripting",
   create_subtask_values progress docker_subtasks "docker",
   create_subtask_values progress yaml_json_subtasks "yaml_json",
   create_subtask_values progress networking_subtasks "networking",
   create_subtask_values progress sdlc_subtasks "sdlc"]

/-- `foundations_total` (line 444): `sum([sum(section.values()) ...])`. -/
def foundations_total (progress : Document) : Nat :=
  ((all_foundations_progress progress).map
    (fun sec => (sec.filter (fun p => p.2)).length)).sum

/-- `foundations_count` (line 445): `sum([len(section) ...])`. -/
def foundations_count (progress : Document) : Nat :=
  ((all_foundations_progress progress).map List.length).sum

/-- `f_progress` (line 446), the per-section recomputation of the
foundations percentage:
`(foundations_total / foundations_count * 100) if foundations_count > 0 else 0`. -/
def f_progress (progress : Document) : ℚ :=
  if 0 < foundations_count progress then
    (foundations_total progress : ℚ) / (foundations_count progress : ℚ) * 100
  else 0

/-- Modelled from the spec: `subsectionRatio` as the spec words it — count
of completed tasks divided by total tasks of the subsection, `0` for an
empty subsection. -/
def subsectionRatioSpec (progress : Document) (subsection_key : String)
    (tasks : List String) : ℚ :=
  match tasks with
  | [] => 0
  | _ :: _ =>
      (countCompleted progress (subsection_full_keys subsection_key tasks) : ℚ) /
        (tasks.length : ℚ)

/-- Modelled from the spec: `sectionRatio` as the spec words it — the
unweighted arithmetic mean of each child subsection `subsectionRatio`,
every subsection counting equally regardless of its task count. -/
def sectionRatioSpec (progress : Document)
    (subsections : List (String × List String)) : ℚ :=
  match subsections with
  | [] => 0
  | _ :: _ =>
      ((subsections.map (fun p => subsectionRatioSpec progress p.1 p.2)).sum) /
        (subsections.length : ℚ)

/-- A document in which exactly one catalogue task is completed. -/
def demo_document : Document :=
  [("linux_basic_commands", Json.bool true)]

/-- A document holding one completed task and the notes record. -/
def round_trip_demo : Document :=
  [("linux_basic_commands", Json.bool true),
   ("notes", Json.obj [("to_learn", Json.str "ArgoCD"),
                       ("in_progress", Json.str "Terraform"),
                       ("completed", Json.str "Linux basics")])]

/-- A document holding a key unknown to the catalogue next to a known task
key. -/
def legacy_document : Document :=
  [("legacy_task", Json.str "keep me"), ("linux_basic_commands", Json.bool false)]

/-- A document in which every catalogue key is set to `true`. -/
def all_true_document : Document :=
  catalogue_full_keys.map (fun k => (k, Json.bool true))

/-! ### General lemmas about the embedded operations -/

theorem lookupStr_assocSet_ne (d : Document) (k : String) (v : Json)
    (u : String) (h : u ≠ k) :
    lookupStr (assocSet d k v) u = lookupStr d u := by
  induction d with
  | nil => simp [assocSet, lookupStr, Ne.symm h]
  | cons hd tl ih =>
      obtain ⟨k2, v2⟩ := hd
      by_cases hk : k2 = k
      · subst hk
        simp [assocSet, lookupStr, Ne.symm h]
      · simp [assocSet, lookupStr, hk, ih]

theorem countCompleted_nil (keys : List String) :
    countCompleted [] keys = 0 := by
  simp [countCompleted, truthyGet, lookupStr]

theorem countCompleted_append (d : Document) (a b : List String) :
    countCompleted d (a ++ b) = countCompleted d a + countCompleted d b := by
  simp [countCompleted, List.filter_append]

theorem countCompleted_eq_length (d : Document) (keys : List String)
    (h : ∀ k ∈ keys, truthyGet d k = true) :
    countCompleted d keys = keys.length := by
  have heq : keys.filter (fun k => truthyGet d k) = keys :=
    List.filter_eq_self.mpr (fun a ha => h a ha)
  simp [countCompleted, heq]

theorem create_subtask_values_length (progress : Document)
    (subtasks : List (String × String)) (section_key : String) :
    (create_subtask_values progress subtasks section_key).length = subtasks.length := by
  simp [create_subtask_values]

theorem create_subtask_values_count (progress : Document)
    (subtasks : List (String × String)) (section_key : String) :
    ((create_subtask_values progress subtasks section_key).filter
        (fun p => p.2)).length
      = countCompleted progress
          (subsection_full_keys section_key (subtasks.map Prod.fst)) := by
  induction subtasks with
  | nil => rfl
  | cons hd tl ih =>
      simp only [create_subtask_values, List.map_cons, List.filter_cons,
        subsection_full_keys, countCompleted] at *
      cases htr : truthyGet progress (fullKey section_key hd.1) <;>
        simp [htr, ih]

theorem lookupStr_map_const_true (keys : List String) (k : String)
    (h : k ∈ keys) :
    lookupStr (keys.map (fun k2 => (k2, Json.bool true))) k
      = some (Json.bool true) := by
  induction keys with
  | nil => cases h
  | cons hd tl ih =>
      by_cases hk : hd = k
      · simp [lookupStr, hk]
      · have hmem : k ∈ tl := by
          rcases List.mem_cons.mp h with h1 | h1
          · exact absurd h1.symm hk
          · exact h1
        simp [lookupStr, hk, ih hmem]

theorem truthyGet_all_true_of_mem (k : String) (h : k ∈ catalogue_full_keys) :
    truthyGet all_true_document k = true := by
  simp [truthyGet, all_true_document, lookupStr_map_const_true _ _ h, Json.truthy]

/-! ### Claim theorems -/

/-- Claim C1, counterexample: with no remote configured and the local file
present but unreadable (for example a permission error), `load_progress`
raises to the caller — the `except (json.JSONDecodeError, FileNotFoundError)`
clause of the local branch does not catch an `OSError` such as
`PermissionError`, so the claim that `load()` never raises for every state
of the local file is false. -/
theorem c1_counterexample :
    load_progress "" (FileState.unreadable "Permission denied")
      (FetchResult.success (Json.obj [])) (FetchResult.success (Json.obj []))
      = Except.error (PyErr.osError "Permission denied") := rfl

/-- Claim C1, amended: for every configured location and every state of the
remote backend, `load_progress` returns some value without raising — every
fetch or parse failure is downgraded to a notice — except in the one case
where the location is empty (local-only) and the local file exists but
reading it fails with an error other than a JSON parse error or a missing
file, which propagates to the caller. -/
theorem c1_total_unless_local_unreadable (loc : String) (file : FileState)
    (hf sf : FetchResult)
    (h : loc = "" → ∀ m, file ≠ FileState.unreadable m) :
    ∃ j ns, load_progress loc file hf sf = Except.ok (j, ns) := by
  by_cases hloc : loc = ""
  · subst hloc
    cases file with
    | missing => exact ⟨_, _, rfl⟩
    | stored j => exact ⟨j, [], rfl⟩
    | malformed => exact ⟨_, _, rfl⟩
    | unreadable m => exact absurd rfl (h rfl m)
  · simp only [load_progress, if_neg hloc]
    by_cases hh : is_http_url loc = true
    · rw [if_pos hh]
      cases hf <;> exact ⟨_, _, rfl⟩
    · rw [if_neg hh]
      by_cases hs : is_s3_url loc = true
      · rw [if_pos hs]
        cases sf <;> exact ⟨_, _, rfl⟩
      · rw [if_neg hs]
        exact ⟨_, _, rfl⟩

/-- Witness for the amended claim C1 at a concrete input: a missing local
file, a timed-out HTTP fetch and a failed s3 fetch still yield a result. -/
theorem c1_total_unless_local_unreadable_witness :
    ∃ j ns, load_progress "" FileState.missing (FetchResult.netError "timeout")
      (FetchResult.parseError "bad json") = Except.ok (j, ns) :=
  c1_total_unless_local_unreadable "" FileState.missing
    (FetchResult.netError "timeout") (FetchResult.parseError "bad json")
    (fun _ m hm => FileState.noConfusion hm)

/-- Claim C3, counterexample: after a failed HTTP fetch the local fallback
does not follow the same rules as the `Local` case.  On the same unreadable
local file, the fallback (whose guard is `except Exception`) downgrades the
read error and returns the empty document, while the `Local` case raises
the error to the caller. -/
theorem c3_counterexample :
    load_progress "https://example.com/progress.json"
        (FileState.unreadable "Permission denied")
        (FetchResult.netError "timeout") (FetchResult.success Json.null)
      = Except.ok (Json.obj [],
          [Notice.warn (remote_warn_msg "https://example.com/progress.json"
            (FetchResult.netError "timeout"))]) ∧
    load_progress "" (FileState.unreadable "Permission denied")
        (FetchResult.netError "timeout") (FetchResult.success Json.null)
      = Except.error (PyErr.osError "Permission denied") :=
  ⟨rfl, rfl⟩

/-- Claim C3, amended: when the location is an `http(s)` URL and the remote
fetch fails in any way (network error, non-2xx status, or parse error),
`load_progress` emits a non-fatal warning and returns the local file
contents when the file exists and parses, and the empty document on any
other local condition (missing, malformed, or unreadable) — slightly more
permissive than the `Local` case, which propagates non-parse read errors
instead of returning empty. -/
theorem c3_http_failure_local_fallback (loc : String) (file : FileState)
    (hf sf : FetchResult) (hloc : is_http_url loc = true)
    (hfail : hf.isFailure = true) :
    load_progress loc file hf sf
      = Except.ok (local_fallback_read file,
          [Notice.warn (remote_warn_msg loc hf)]) := by
  have hne : ¬ loc = "" := by
    intro h
    subst h
    exact absurd hloc (by decide)
  simp only [load_progress, if_neg hne, if_pos hloc]
  cases hf with
  | success j => simp [FetchResult.isFailure] at hfail
  | netError _ => rfl
  | httpError _ => rfl
  | parseError _ => rfl

/-- Witness for the amended claim C3 at a concrete input: a timed-out fetch
over a missing local file yields the empty document plus a warning. -/
theorem c3_http_failure_local_fallback_witness :
    load_progress "https://example.com/progress.json" FileState.missing
        (FetchResult.netError "timed out") (FetchResult.success Json.null)
      = Except.ok (local_fallback_read FileState.missing,
          [Notice.warn (remote_warn_msg "https://example.com/progress.json"
            (FetchResult.netError "timed out"))]) :=
  c3_http_failure_local_fallback "https://example.com/progress.json"
    FileState.missing (FetchResult.netError "timed out")
    (FetchResult.success Json.null) (by decide) rfl

/-- Claim C4: for every document, `save_progress` under an `http(s)`
location performs no network write, surfaces the informational read-only
notice, writes the local backup first when the write succeeds, and when the
local write fails it reports a warning without blocking the rest of the
save (the informational notice is still emitted and the file is left as it
was). -/
theorem c4_http_save_is_local_only (data : Document) (loc : String)
    (file : FileState) (localWriteErr s3PutErr : Option String)
    (hloc : is_http_url loc = true) :
    (save_progress data loc file localWriteErr s3PutErr).2.2 = none ∧
    Notice.info http_readonly_info ∈
      (save_progress data loc file localWriteErr s3PutErr).2.1 ∧
    (localWriteErr = none →
      (save_progress data loc file localWriteErr s3PutErr).1
        = FileState.stored (Json.obj data)) ∧
    (∀ e, localWriteErr = some e →
      Notice.warn (local_backup_warn e) ∈
        (save_progress data loc file localWriteErr s3PutErr).2.1 ∧
      (save_progress data loc file localWriteErr s3PutErr).1 = file) := by
  have hne : ¬ loc = "" := by
    intro h
    subst h
    exact absurd hloc (by decide)
  cases localWriteErr with
  | none => simp [save_progress, if_neg hne, hloc]
  | some e => simp [save_progress, if_neg hne, hloc]

/-- Witness for claim C4 at a concrete input: saving under an HTTP location
with a failing local backup write still emits the read-only notice and
uploads nothing. -/
theorem c4_http_save_is_local_only_witness :
    (save_progress demo_document "https://example.com/progress.json"
        FileState.missing (some "disk full") none).2.2 = none ∧
    Notice.info http_readonly_info ∈
      (save_progress demo_document "https://example.com/progress.json"
        FileState.missing (some "disk full") none).2.1 ∧
    ((some "disk full" : Option String) = none →
      (save_progress demo_document "https://example.com/progress.json"
        FileState.missing (some "disk full") none).1
        = FileState.stored (Json.obj demo_document)) ∧
    (∀ e, (some "disk full" : Option String) = some e →
      Notice.warn (local_backup_warn e) ∈
        (save_progress demo_document "https://example.com/progress.json"
          FileState.missing (some "disk full") none).2.1 ∧
      (save_progress demo_document "https://example.com/progress.json"
        FileState.missing (some "disk full") none).1 = FileState.missing) :=
  c4_http_save_is_local_only demo_document "https://example.com/progress.json"
    FileState.missing (some "disk full") none (by decide)

/-- Claim C9: the reset confirmation block deletes the local file and clears
the session (discarding the in-memory document), and a `load_progress` in
the local configuration performed afterwards returns the empty document. -/
theorem c9_reset_then_load_empty (file : FileState)
    (progressMem : Option Document) (hf sf : FetchResult) :
    reset_progress_file file = FileState.missing ∧
    reset_session progressMem = none ∧
    load_progress "" (reset_progress_file file) hf sf
      = Except.ok (Json.obj [], []) :=
  ⟨rfl, rfl, rfl⟩

/-- Claim C10: a non-empty configured location that is neither `http(s)`
nor `s3` makes `load_progress` return the empty document at once, whatever
the local file holds — while the empty location does consult the local file
and returns its stored contents. -/
theorem c10_unknown_scheme_ignores_local_file (loc : String)
    (file : FileState) (hf sf : FetchResult) (h1 : ¬ loc = "")
    (h2 : is_http_url loc = false) (h3 : is_s3_url loc = false) :
    load_progress loc file hf sf = Except.ok (Json.obj [], []) ∧
    load_progress "" (FileState.stored (Json.obj demo_document)) hf sf
      = Except.ok (Json.obj demo_document, []) := by
  constructor
  · simp [load_progress, if_neg h1, h2, h3]
  · rfl

/-- Witness for claim C10 at a concrete input: a plain file-path location
string is an unknown scheme, so the stored local file is ignored. -/
theorem c10_unknown_scheme_ignores_local_file_witness :
    load_progress "dashboard_progress.json"
        (FileState.stored (Json.obj demo_document))
        (FetchResult.success Json.null) (FetchResult.success Json.null)
      = Except.ok (Json.obj [], []) ∧
    load_progress "" (FileState.stored (Json.obj demo_document))
        (FetchResult.success Json.null) (FetchResult.success Json.null)
      = Except.ok (Json.obj demo_document, []) :=
  c10_unknown_scheme_ignores_local_file "dashboard_progress.json"
    (FileState.stored (Json.obj demo_document))
    (FetchResult.success Json.null) (FetchResult.success Json.null)
    (by decide) (by decide) (by decide)

/-- Claim C5: in the local configuration (empty location), for every
document whose keys are catalogue task keys or the notes record, a
`load_progress` performed after a successful `save_progress` returns a
document equal to the one saved. -/
theorem c5_local_round_trip (d : Document) (file : FileState)
    (hf sf : FetchResult) (s3PutErr : Option String)
    (hkeys : ∀ k ∈ d.map Prod.fst, k ∈ catalogue_full_keys ∨ k = "notes") :
    load_progress "" (save_progress d "" file none s3PutErr).1 hf sf
      = Except.ok (Json.obj d, []) := rfl

/-- Witness for claim C5 at a concrete input: a document with one completed
task and the notes record survives the save and load cycle unchanged. -/
theorem c5_local_round_trip_witness :
    load_progress ""
        (save_progress round_trip_demo "" FileState.missing none none).1
        (FetchResult.netError "timeout") (FetchResult.success Json.null)
      = Except.ok (Json.obj round_trip_demo, []) :=
  c5_local_round_trip round_trip_demo FileState.missing
    (FetchResult.netError "timeout") (FetchResult.success Json.null) none
    (by decide)

/-- Claim C6: toggling one task flag through `persistent_checkbox` leaves
every other key of the document untouched, and a subsequent successful
`save_progress` writes the mutated document verbatim to the local file, so
keys unknown to the catalogue keep their values through the
load, mutate-one-key, save cycle. -/
theorem c6_unknown_keys_preserved (d : Document) (k : String) (b : Bool)
    (u : String) (file : FileState) (s3PutErr : Option String)
    (hu : u ∉ catalogue_full_keys) (huk : u ≠ k) :
    lookupStr (persistent_checkbox d k b).2 u = lookupStr d u ∧
    (save_progress (persistent_checkbox d k b).2 "" file none s3PutErr).1
      = FileState.stored (Json.obj (persistent_checkbox d k b).2) :=
  ⟨lookupStr_assocSet_ne d k (Json.bool b) u huk, rfl⟩

/-- Witness for claim C6 at a concrete input: completing the linux basics
task leaves the legacy key and its value intact, and the saved file holds
the mutated document verbatim. -/
theorem c6_unknown_keys_preserved_witness :
    lookupStr (persistent_checkbox legacy_document "linux_basic_commands" true).2
        "legacy_task" = lookupStr legacy_document "legacy_task" ∧
    (save_progress (persistent_checkbox legacy_document "linux_basic_commands" true).2
        "" FileState.missing none none).1
      = FileState.stored
          (Json.obj (persistent_checkbox legacy_document "linux_basic_commands" true).2) :=
  c6_unknown_keys_preserved legacy_document "linux_basic_commands" true
    "legacy_task" FileState.missing none (by decide) (by decide)

/-- Claim C8: the subsection completion ratio (the per-hundred value of
`section_progress` handed to the progress bar) always lies in [0,1], equals
0 for a subsection with zero tasks, and equals one half for the two-task
subsection with one task completed and one not. -/
theorem c8_subsection_fraction_props (items : List (String × Bool)) :
    0 ≤ subsectionFraction items ∧ subsectionFraction items ≤ 1 ∧
    (items = [] → subsectionFraction items = 0) ∧
    subsectionFraction [("a", true), ("b", false)] = 1/2 := by
  refine ⟨?_, ?_, ?_, ?_⟩
  · cases items with
    | nil => simp [subsectionFraction, section_progress]
    | cons hd tl =>
        unfold subsectionFraction section_progress
        positivity
  · cases items with
    | nil => simp [subsectionFraction, section_progress]
    | cons hd tl =>
        unfold subsectionFraction section_progress
        have hlen : (0:ℚ) < (((hd :: tl) : List (String × Bool)).length : ℚ) := by
          exact_mod_cast Nat.succ_pos tl.length
        have hc : ((((hd :: tl) : List (String × Bool)).filter
            (fun p => p.2)).length : ℚ)
            ≤ (((hd :: tl) : List (String × Bool)).length : ℚ) := by
          exact_mod_cast List.length_filter_le _ _
        have hrw : ((((hd :: tl) : List (String × Bool)).filter
              (fun p => p.2)).length : ℚ)
            / (((hd :: tl) : List (String × Bool)).length : ℚ) * 100 / 100
            = ((((hd :: tl) : List (String × Bool)).filter
              (fun p => p.2)).length : ℚ)
            / (((hd :: tl) : List (String × Bool)).length : ℚ) := by
          ring
        rw [hrw]
        exact div_le_one_of_le₀ hc (le_of_lt hlen)
  · intro h
    subst h
    simp [subsectionFraction, section_progress]
  · unfold subsectionFraction section_progress
    norm_num [List.filter]

/-- Witness for claim C8: the zero-task case and the half-completed
two-task case, evaluated concretely. -/
theorem c8_subsection_fraction_props_witness :
    subsectionFraction [] = 0 ∧
    subsectionFraction [("a", true), ("b", false)] = 1/2 :=
  ⟨(c8_subsection_fraction_props []).2.2.1 rfl,
   (c8_subsection_fraction_props []).2.2.2⟩

/-! ### Lemmas for the aggregate claims -/

theorem calc_section_empty_doc (subsections : List (String × List String)) :
    calculate_section_progress_for [] subsections = 0 := by
  simp [calculate_section_progress_for, countCompleted_nil]

theorem calc_section_all_complete (subsections : List (String × List String))
    (hall : ∀ k ∈ section_task_keys subsections,
      truthyGet all_true_document k = true)
    (hpos : 0 < (section_task_keys subsections).length) :
    calculate_section_progress_for all_true_document subsections = 100 := by
  have hcount := countCompleted_eq_length all_true_document
    (section_task_keys subsections) hall
  have hne : ((section_task_keys subsections).length : ℚ) ≠ 0 := by
    exact_mod_cast hpos.ne'
  simp only [calculate_section_progress_for, hcount, if_pos hpos]
  rw [div_self hne, one_mul]

/-- Claim C7: the overall figure is the arithmetic mean of the five fixed
top-level section percentages, the empty document yields an overall ratio
of 0, and the document with every catalogue key set to true yields an
overall ratio of 1. -/
theorem c7_overall_mean_and_extremes :
    (∀ progress : Document,
      overall progress =
        (calculate_section_progress_for progress foundations_data +
         calculate_section_progress_for progress cicd_data +
         calculate_section_progress_for progress cloud_data +
         calculate_section_progress_for progress monitoring_data +
         calculate_section_progress_for progress sre_data) / 5) ∧
    overallFraction [] = 0 ∧
    overallFraction all_true_document = 1 := by
  refine ⟨fun progress => rfl, ?_, ?_⟩
  · have h : ∀ sd, calculate_section_progress_for [] sd = 0 :=
      calc_section_empty_doc
    simp [overallFraction, overall, progress_data, sections_data, getQ,
      lookupStr, h]
  · have hmem : ∀ sd : List (String × List String),
        (∀ k ∈ section_task_keys sd, k ∈ catalogue_full_keys) →
        (∀ k ∈ section_task_keys sd, truthyGet all_true_document k = true) :=
      fun sd hsub k hk => truthyGet_all_true_of_mem k (hsub k hk)
    have hf : calculate_section_progress_for all_true_document foundations_data = 100 := by
      refine calc_section_all_complete _ (hmem _ ?_) (by decide)
      intro k hk
      simp only [catalogue_full_keys, List.mem_append]
      tauto
    have hc : calculate_section_progress_for all_true_document cicd_data = 100 := by
      refine calc_section_all_complete _ (hmem _ ?_) (by decide)
      intro k hk
      simp only [catalogue_full_keys, List.mem_append]
      tauto
    have hcl : calculate_section_progress_for all_true_document cloud_data = 100 := by
      refine calc_section_all_complete _ (hmem _ ?_) (by decide)
      intro k hk
      simp only [catalogue_full_keys, List.mem_append]
      tauto
    have hm : calculate_section_progress_for all_true_document monitoring_data = 100 := by
      refine calc_section_all_complete _ (hmem _ ?_) (by decide)
      intro k hk
      simp only [catalogue_full_keys, List.mem_append]
      tauto
    have hs : calculate_section_progress_for all_true_document sre_data = 100 := by
      refine calc_section_all_complete _ (hmem _ ?_) (by decide)
      intro k hk
      simp only [catalogue_full_keys, List.mem_append]
      tauto
    have hover : overall all_true_document =
        (calculate_section_progress_for all_true_document foundations_data +
         calculate_section_progress_for all_true_document cicd_data +
         calculate_section_progress_for all_true_document cloud_data +
         calculate_section_progress_for all_true_document monitoring_data +
         calculate_section_progress_for all_true_document sre_data) / 5 := rfl
    rw [overallFraction, hover, hf, hc, hcl, hm, hs]
    norm_num

theorem countCompleted_empty_keys (d : Document) : countCompleted d [] = 0 := rfl

/-- Claim C2, counterexample: on the document completing exactly the task
`linux_basic_commands`, the foundations ratio computed by the code
(task-weighted, 1 completed of 46 tasks, so 1/46) is not the unweighted
arithmetic mean of the six subsection ratios the spec prescribes
((1/10)/6 = 1/60), so the claim that the section-level ratio equals the
mean of subsection ratios is false. -/
theorem c2_counterexample :
    calculate_section_progress_for demo_document foundations_data / 100
      ≠ sectionRatioSpec demo_document foundations_data := by
  have h1 : countCompleted demo_document (section_task_keys foundations_data) = 1 := by
    decide
  have h2 : (section_task_keys foundations_data).length = 46 := by decide
  have h3 : calculate_section_progress_for demo_document foundations_data = 50/23 := by
    simp only [calculate_section_progress_for, h1, h2]
    norm_num
  have hsub1 : countCompleted demo_document (subsection_full_keys "linux"
      ["basic_commands", "file_operations", "permissions", "text_processing", "process_mgmt", "system_info", "package_mgmt", "user_mgmt", "cron_jobs", "log_analysis"]) = 1 := by
    decide
  have hsub2 : countCompleted demo_document (subsection_full_keys "scripting"
      ["bash_basics", "bash_advanced", "python_basics", "python_modules", "automation_scripts", "error_handling", "script_deployment", "config_management"]) = 0 := by
    decide
  have hsub3 : countCompleted demo_document (subsection_full_keys "docker"
      ["docker_concepts", "dockerfile", "docker_commands", "volumes_networks", "docker_compose", "registry_mgmt", "security", "optimization"]) = 0 := by
    decide
  have hsub4 : countCompleted demo_document (subsection_full_keys "yaml_json"
      ["yaml_syntax", "json_syntax", "data_validation", "templating", "config_files", "api_responses"]) = 0 := by
    decide
  have hsub5 : countCompleted demo_document (subsection_full_keys "networking"
      ["osi_model", "ip_subnetting", "dns_concepts", "load_balancing", "firewalls", "network_tools", "ssl_tls", "vpn_concepts"]) = 0 := by
    decide
  have hsub6 : countCompleted demo_document (subsection_full_keys "sdlc"
      ["sdlc_phases", "agile_scrum", "waterfall", "devops_integration", "quality_assurance", "deployment_strategies"]) = 0 := by
    decide
  have h4 : sectionRatioSpec demo_document foundations_data = 1/60 := by
    simp only [sectionRatioSpec, foundations_data, List.map_cons, List.map_nil,
      subsectionRatioSpec, hsub1, hsub2, hsub3, hsub4, hsub5, hsub6]
    norm_num
  rw [h3, h4]
  norm_num

/-- Claim C2, amended: for every document the section-level percentage is
the task-weighted ratio total-completed over total-tasks.  Both code paths
agree on it: the per-section recomputation `f_progress` built from the six
subtask dicts equals `calculate_section_progress` for the foundations
section, and that value is completed-count divided by the 46 foundations
tasks times 100 — not the unweighted mean of subsection ratios. -/
theorem c2_section_percent_is_task_weighted (progress : Document) :
    f_progress progress
      = calculate_section_progress_for progress foundations_data ∧
    calculate_section_progress_for progress foundations_data
      = (countCompleted progress (section_task_keys foundations_data) : ℚ)
          / 46 * 100 := by
  have hlen : (section_task_keys foundations_data).length = 46 := by decide
  have hkeys : section_task_keys foundations_data
      = subsection_full_keys "linux" (linux_subtasks.map Prod.fst) ++
        (subsection_full_keys "scripting" (scripting_subtasks.map Prod.fst) ++
        (subsection_full_keys "docker" (docker_subtasks.map Prod.fst) ++
        (subsection_full_keys "yaml_json" (yaml_json_subtasks.map Prod.fst) ++
        (subsection_full_keys "networking" (networking_subtasks.map Prod.fst) ++
         subsection_full_keys "sdlc" (sdlc_subtasks.map Prod.fst))))) := by
    decide
  have htot : foundations_total progress
      = countCompleted progress (section_task_keys foundations_data) := by
    simp only [foundations_total, all_foundations_progress, List.map_cons,
      List.map_nil, List.sum_cons, List.sum_nil,
      create_subtask_values_count, hkeys, countCompleted_append]
    omega
  have hcnt : foundations_count progress = 46 := by
    simp only [foundations_count, all_foundations_progress, List.map_cons,
      List.map_nil, List.sum_cons, List.sum_nil, create_subtask_values_length]
    rfl
  constructor
  · simp only [f_progress, calculate_section_progress_for, htot, hcnt, hlen]
  · simp only [calculate_section_progress_for, hlen]
    norm_num

end Dashboard
